import Mathlib

/-!
# ClusteredMapView

A shallow embedding of `src/ClusteredMapView.js`, the React component that keeps a
SuperCluster index of the items it is given and re-queries it whenever the map region
changes.

* JavaScript numbers are modelled by rationals (finite values only).
* A method of the component is a function from the component instance to an `Outcome`:
  the instance after the call, the calls made to the outside world in order, and the
  exception that left the method, if any.
* The libraries the component imports (`supercluster`, `@mapbox/geo-viewport`) and the two
  helpers of `./util` are not part of the file; the component is parameterised by them
  (`Collaborators`).
-/

namespace ClusteredMapView

/-- A JavaScript number (finite). -/
abbrev Num := ℚ

/-- The JavaScript values an item, a coordinate or a property can be. -/
inductive JSValue where
  | undefined : JSValue
  | null : JSValue
  | bool (b : Bool) : JSValue
  | number (n : Num) : JSValue
  | string (s : String) : JSValue
  | object (fields : List (String × JSValue)) : JSValue

/-- An exception value. -/
inductive JSError where
  | typeError (what : String) : JSError
  | configurationError (what : String) : JSError
  | notInitialized : JSError
deriving DecidableEq, Repr

/-- Own-property lookup in the field list of an object; a missing key reads `undefined`. -/
def lookupField (k : String) : List (String × JSValue) → JSValue
  | [] => JSValue.undefined
  | (name, v) :: rest => if name = k then v else lookupField k rest

/-- The member read `v.k` (or `v[k]`): a `TypeError` on `undefined` and `null`, the field of
an object, `undefined` on the other primitives. -/
def JSValue.get (v : JSValue) (k : String) : Except JSError JSValue :=
  match v with
  | JSValue.undefined => Except.error (JSError.typeError k)
  | JSValue.null => Except.error (JSError.typeError k)
  | JSValue.object fields => Except.ok (lookupField k fields)
  | _ => Except.ok JSValue.undefined

/-- The optional chain `v?.k`: `undefined` when `v` is `undefined` or `null`, the member
read otherwise. -/
def JSValue.optGet (v : JSValue) (k : String) : JSValue :=
  match v with
  | JSValue.undefined => JSValue.undefined
  | JSValue.null => JSValue.undefined
  | JSValue.object fields => lookupField k fields
  | _ => JSValue.undefined

/-- The test `v === 0`. -/
def JSValue.strictEqZero (v : JSValue) : Bool :=
  match v with
  | JSValue.number n => decide (n = 0)
  | _ => false

/-- A map region as the map widget reports it. -/
structure Region where
  latitude : Num
  longitude : Num
  latitudeDelta : Num
  longitudeDelta : Num
deriving DecidableEq

/-- A bounding box, the array `[west, south, east, north]`. -/
structure BBox where
  west : Num
  south : Num
  east : Num
  north : Num
deriving DecidableEq

/-- The object whose `zoom` member `getClusters` reads: either the literal
`{ zoom: this.props.minZoom }` or the result of `GeoViewport.viewport`. -/
structure Viewport where
  zoom : Num
deriving DecidableEq

/-- The `properties` member of a GeoJSON feature, with the three members the component reads. -/
structure Properties where
  point_count : JSValue
  item : JSValue
  cluster_id : JSValue

/-- A GeoJSON feature: a point built from an item, or a node returned by the index. -/
structure Feature where
  geometry : JSValue
  properties : Properties

/-- The `accessor` prop: a field name or a function of the item. -/
inductive Accessor where
  | field (name : String) : Accessor
  | fn (f : JSValue → JSValue) : Accessor

/-- The props of the component. A callback prop is recorded by whether it is configured;
calling it is an `Event`. `radius` is optional. -/
structure Props where
  region : Option Region
  initialRegion : Option Region
  width : Num
  height : Num
  extent : Num
  minZoom : Num
  maxZoom : Num
  radius : Option Num
  accessor : Accessor
  clusteringEnabled : Bool
  clusterPressMaxChildren : Num
  preserveClusterPressBehavior : Bool
  edgePadding : JSValue
  data : List JSValue
  children : List JSValue
  onClusterPress : Bool
  onRegionChangeComplete : Bool
  onLayout : Bool
  onMapReady : Bool

/-- The options object handed to `new SuperCluster(...)`. -/
structure SuperClusterOptions where
  extent : Num
  minZoom : Num
  maxZoom : Num
  radius : Num
deriving DecidableEq

/-- A SuperCluster instance seen from outside: its options and the points it was loaded
with (`none` until `load` is called). -/
structure SuperCluster where
  options : SuperClusterOptions
  loaded : Option (List Feature)

/-- The value of `new SuperCluster(options)`. -/
def SuperCluster.create (options : SuperClusterOptions) : SuperCluster :=
  { options := options, loaded := none }

/-- The call `index.load(points)`: the points replace whatever was loaded. -/
def SuperCluster.load (index : SuperCluster) (points : List Feature) : SuperCluster :=
  { index with loaded := some points }

/-- What the component imports and does not define: the two helpers of `./util`,
`GeoViewport.viewport`, and the two queries of a loaded SuperCluster as functions of its
options and loaded points. -/
structure Collaborators where
  regionToBoundingBox : Region → BBox
  itemToGeoJSONFeature : JSValue → Accessor → Except JSError Feature
  viewport : BBox → Num × Num → Viewport
  clusters : SuperClusterOptions → List Feature → BBox → Num → List Feature
  leaves : SuperClusterOptions → List Feature → JSValue → Num → List Feature

/-- The call `index.getClusters(bbox, zoom)`; an index that was never loaded fails. -/
def SuperCluster.getClusters (lib : Collaborators) (index : SuperCluster) (bbox : BBox)
    (zoom : Num) : Except JSError (List Feature) :=
  match index.loaded with
  | none => Except.error JSError.notInitialized
  | some points => Except.ok (lib.clusters index.options points bbox zoom)

/-- The call `index.getLeaves(clusterId, limit)`; an index that was never loaded fails. -/
def SuperCluster.getLeaves (lib : Collaborators) (index : SuperCluster) (clusterId : JSValue)
    (limit : Num) : Except JSError (List Feature) :=
  match index.loaded with
  | none => Except.error JSError.notInitialized
  | some points => Except.ok (lib.leaves index.options points clusterId limit)

/-- The component state `this.state`. -/
structure State where
  data : List Feature
  region : Option Region
  isMapReady : Bool
  isMapLayout : Bool

/-- The two deferred callbacks the component hands to `setTimeout`. -/
inductive TimerCallback where
  | layout : TimerCallback
  | ready : TimerCallback
deriving DecidableEq, Repr

/-- A component instance: props, state and the instance fields `index`, `mapview` (whether
the ref is attached) and `dimensions`, with the timers scheduled and not yet fired. -/
structure Component where
  props : Props
  state : State
  index : Option SuperCluster
  mapview : Bool
  dimensions : Num × Num
  timers : List TimerCallback

/-- A call the component makes to the outside world. -/
inductive Event where
  | indexNew (options : SuperClusterOptions) : Event
  | indexLoad (points : List Feature) : Event
  | viewport (bbox : BBox) (dimensions : Num × Num) : Event
  | indexGetClusters (bbox : BBox) (zoom : Num) : Event
  | indexGetLeaves (clusterId : JSValue) (limit : Num) : Event
  | fitToCoordinates (coordinates : List JSValue) (edgePadding : JSValue) : Event
  | onClusterPress (clusterId : JSValue) (markers : Option (List JSValue)) : Event
  | onRegionChangeComplete (region : Region) (data : List Feature) : Event
  | setTimeout (callback : TimerCallback) (ms : Nat) : Event
  | onLayout : Event
  | onMapReady : Event

/-- The result of running a method: the instance afterwards, the outside calls in order,
and the exception that left the method, if any. -/
structure Outcome where
  comp : Component
  trace : List Event
  thrown : Option JSError

/-- The expression `a || b` for an optional number `a`: `b` when `a` is missing or zero. -/
def orNum (a : Option Num) (b : Num) : Num :=
  match a with
  | none => b
  | some x => if x = 0 then b else x

/-- The expression `a || b` for two optional regions. -/
def orRegion (a b : Option Region) : Option Region :=
  match a with
  | some r => some r
  | none => b

/-- The call `array.map(f)` with a callback that may throw: the first exception leaves the
loop, otherwise there is one result per element, in order. -/
def mapThrowing {α β : Type} (f : α → Except JSError β) : List α → Except JSError (List β)
  | [] => Except.ok []
  | x :: xs =>
    match f x with
    | Except.error e => Except.error e
    | Except.ok y =>
      match mapThrowing f xs with
      | Except.error e => Except.error e
      | Except.ok ys => Except.ok (y :: ys)

/-- The constructor: empty data, the region prop or else the initial region, both
readiness flags false. -/
def construct (props : Props) : Component :=
  { props := props
    state :=
      { data := []
        region := orRegion props.region props.initialRegion
        isMapReady := false
        isMapLayout := false }
    index := none
    mapview := false
    dimensions := (props.width, props.height)
    timers := [] }

/-- The method `mapRef(ref)` called with the mounted map. -/
def mapRef (c : Component) : Component :=
  { c with mapview := true }

/-- The viewport chosen by `getClusters`: the literal with `minZoom` when
`region.longitudeDelta >= 40`, the result of `GeoViewport.viewport` otherwise, with the
library call it costs. -/
def chooseViewport (lib : Collaborators) (c : Component) (region : Region) (bbox : BBox) :
    List Event × Viewport :=
  if region.longitudeDelta ≥ 40 then
    ([], { zoom := c.props.minZoom })
  else
    ([Event.viewport bbox c.dimensions], lib.viewport bbox c.dimensions)

/-- The method `getClusters(region)`. -/
def getClusters (lib : Collaborators) (c : Component) (region : Option Region) :
    List Event × Except JSError (List Feature) :=
  match region with
  | none => ([], Except.error (JSError.typeError "longitudeDelta"))
  | some region =>
    let bbox := lib.regionToBoundingBox region
    let vp := chooseViewport lib c region bbox
    match c.index with
    | none => (vp.1, Except.error (JSError.typeError "getClusters"))
    | some index =>
      (vp.1 ++ [Event.indexGetClusters bbox vp.2.zoom],
        SuperCluster.getClusters lib index bbox vp.2.zoom)

/-- The options `clusterize` builds the index with. -/
def indexOptions (c : Component) : SuperClusterOptions :=
  { extent := c.props.extent
    minZoom := c.props.minZoom
    maxZoom := c.props.maxZoom
    radius := orNum c.props.radius (c.dimensions.1 * (45 / 1000)) }

/-- The method `clusterize(dataset)`. -/
def clusterize (lib : Collaborators) (c : Component) (dataset : List JSValue) : Outcome :=
  let fresh := SuperCluster.create (indexOptions c)
  let c1 : Component := { c with index := some fresh }
  match mapThrowing (fun item => lib.itemToGeoJSONFeature item c.props.accessor) dataset with
  | Except.error e => { comp := c1, trace := [Event.indexNew (indexOptions c)], thrown := some e }
  | Except.ok rawData =>
    let c2 : Component := { c1 with index := some (fresh.load rawData) }
    let q := getClusters lib c2 c2.state.region
    match q.2 with
    | Except.error e =>
      { comp := c2
        trace := [Event.indexNew (indexOptions c), Event.indexLoad rawData] ++ q.1
        thrown := some e }
    | Except.ok data =>
      { comp := { c2 with state := { c2.state with data := data } }
        trace := [Event.indexNew (indexOptions c), Event.indexLoad rawData] ++ q.1
        thrown := none }

/-- The hook `componentDidMount()`. -/
def componentDidMount (lib : Collaborators) (c : Component) : Outcome :=
  clusterize lib c c.props.data

/-- The hook `componentWillReceiveProps(nextProps)`; `sameData` is the outcome of the
reference test `this.props.data === nextProps.data`. -/
def componentWillReceiveProps (lib : Collaborators) (c : Component) (nextProps : Props)
    (sameData : Bool) : Outcome :=
  if sameData then { comp := c, trace := [], thrown := none }
  else clusterize lib c nextProps.data

/-- The method `clustersChanged(nextState)`. -/
def clustersChanged (c : Component) (nextState : State) : Bool :=
  decide (c.state.data.length ≠ nextState.data.length)

/-- The method `onRegionChangeComplete(region)`. -/
def onRegionChangeComplete (lib : Collaborators) (c : Component) (region : Region) : Outcome :=
  let q := getClusters lib c (some region)
  match q.2 with
  | Except.error e => { comp := c, trace := q.1, thrown := some e }
  | Except.ok data =>
    { comp := { c with state := { c.state with region := some region, data := data } }
      trace := q.1 ++
        (if c.props.onRegionChangeComplete then [Event.onRegionChangeComplete region data]
         else [])
      thrown := none }

/-- The method `onClusterPress(cluster)`. -/
def onClusterPress (lib : Collaborators) (c : Component) (cluster : Feature) : Outcome :=
  if c.props.preserveClusterPressBehavior = false then
    { comp := c
      trace :=
        if c.props.onClusterPress then [Event.onClusterPress cluster.properties.cluster_id none]
        else []
      thrown := none }
  else
    match c.index with
    | none => { comp := c, trace := [], thrown := some (JSError.typeError "getLeaves") }
    | some index =>
      let call :=
        Event.indexGetLeaves cluster.properties.cluster_id c.props.clusterPressMaxChildren
      match SuperCluster.getLeaves lib index cluster.properties.cluster_id
          c.props.clusterPressMaxChildren with
      | Except.error e => { comp := c, trace := [call], thrown := some e }
      | Except.ok children =>
        let markers := children.map (fun ch => ch.properties.item)
        if c.mapview = false then
          { comp := c, trace := [call], thrown := some (JSError.typeError "fitToCoordinates") }
        else
          { comp := c
            trace :=
              [call,
                Event.fitToCoordinates (markers.map (fun m => m.optGet "location"))
                  c.props.edgePadding] ++
              (if c.props.onClusterPress then
                [Event.onClusterPress cluster.properties.cluster_id (some markers)]
               else [])
            thrown := none }

/-- The handler `onMapLayout`: it only schedules its callback, 3000 ms later. -/
def onMapLayout (c : Component) : Outcome :=
  { comp := { c with timers := c.timers ++ [TimerCallback.layout] }
    trace := [Event.setTimeout TimerCallback.layout 3000]
    thrown := none }

/-- The handler `onMapReady`: it only schedules its callback, 3000 ms later. -/
def onMapReady (c : Component) : Outcome :=
  { comp := { c with timers := c.timers ++ [TimerCallback.ready] }
    trace := [Event.setTimeout TimerCallback.ready 3000]
    thrown := none }

/-- The body of a scheduled callback, run when its timer fires: set the flag, then call the
prop of the same name (a `TypeError` when that prop is not a function). -/
def fireTimer (c : Component) (callback : TimerCallback) : Outcome :=
  match callback with
  | TimerCallback.layout =>
    { comp := { c with state := { c.state with isMapLayout := true }
                       timers := c.timers.erase TimerCallback.layout }
      trace := if c.props.onLayout then [Event.onLayout] else []
      thrown := if c.props.onLayout then none else some (JSError.typeError "onLayout") }
  | TimerCallback.ready =>
    { comp := { c with state := { c.state with isMapReady := true }
                       timers := c.timers.erase TimerCallback.ready }
      trace := if c.props.onMapReady then [Event.onMapReady] else []
      thrown := if c.props.onMapReady then none else some (JSError.typeError "onMapReady") }

/-- The timers of a list firing one after the other, oldest first. -/
def drainTimers (c : Component) : List TimerCallback → Component
  | [] => c
  | callback :: rest => drainTimers (fireTimer c callback).comp rest

/-- Every timer the component has scheduled fires, in the order of scheduling. -/
def drain (c : Component) : Component :=
  drainTimers c c.timers

/-- An element among the children of the rendered map: the result of `renderMarker` on an
item, a `ClusterMarker` with its key (the text `cluster-` followed by the id) and the node
it spreads, or a child passed by the caller. -/
inductive Element where
  | renderMarker (item : JSValue) : Element
  | clusterMarker (keyPrefix : String) (keyId : JSValue) (node : Feature) : Element
  | child (c : JSValue) : Element

/-- The three child expressions inside `<MapView>`; `none` is the value `false`, which
renders nothing. -/
structure Rendered where
  clusterSlot : Option (List Element)
  rawSlot : Option (List Element)
  childrenSlot : Option (List Element)

/-- A map with nothing inside. -/
def Rendered.nothing : Rendered :=
  { clusterSlot := none, rawSlot := none, childrenSlot := none }

/-- The callback of `this.state.data.map` in `render`. -/
def renderNode (d : Feature) : Element :=
  if d.properties.point_count.strictEqZero then Element.renderMarker d.properties.item
  else Element.clusterMarker "cluster-" d.properties.cluster_id d

/-- The method `render()`, as the children of the map. -/
def render (c : Component) : Rendered :=
  let mapReady := c.state.isMapReady && c.state.isMapLayout
  { clusterSlot :=
      if mapReady && c.props.clusteringEnabled then some (c.state.data.map renderNode)
      else none
    rawSlot :=
      if mapReady && !c.props.clusteringEnabled then
        some (c.props.data.map (fun d => Element.renderMarker d))
      else none
    childrenSlot :=
      if mapReady then some (c.props.children.map Element.child) else none }

/-! ## The helpers of `./util` and sample collaborators

The two helpers the component imports from `./util` are modelled from the specification.
The sample collaborators are small computable stand-ins for the two external libraries;
they serve to run the component on concrete inputs. -/

/-- The value `lo` when `x` is below it, `hi` when `x` is above it, `x` otherwise. -/
def clamp (lo hi x : Num) : Num :=
  max lo (min hi x)

/-- Modelled from the spec: `regionToBoundingBox` of `./util`, which is not among the
sources. Each delta is halved around the centre (west is the centre longitude minus half
the longitude delta, and so on), clamped to the valid longitude and latitude ranges. -/
def Util.regionToBoundingBox (r : Region) : BBox :=
  { west := clamp (-180) 180 (r.longitude - r.longitudeDelta / 2)
    south := clamp (-90) 90 (r.latitude - r.latitudeDelta / 2)
    east := clamp (-180) 180 (r.longitude + r.longitudeDelta / 2)
    north := clamp (-90) 90 (r.latitude + r.latitudeDelta / 2) }

/-- Modelled from the spec: the coordinate the accessor resolves for an item, part of
`./util`, which is not among the sources. A field name reads `item[name]`, a function is
applied to the item. -/
def Util.resolveCoordinate (item : JSValue) (accessor : Accessor) : Except JSError JSValue :=
  match accessor with
  | Accessor.field name => item.get name
  | Accessor.fn f => Except.ok (f item)

/-- Modelled from the spec: `itemToGeoJSONFeature` of `./util`, which is not among the
sources. The point of an item carries the longitude and latitude the accessor resolves and
wraps the item, with a point count of zero; the conversion fails with a configuration
error when the resolved coordinate is missing or not numeric. -/
def Util.itemToGeoJSONFeature (item : JSValue) (accessor : Accessor) : Except JSError Feature :=
  match Util.resolveCoordinate item accessor with
  | Except.error e => Except.error e
  | Except.ok coordinate =>
    match coordinate.optGet "longitude", coordinate.optGet "latitude" with
    | JSValue.number lon, JSValue.number lat =>
      Except.ok
        { geometry :=
            JSValue.object [("longitude", JSValue.number lon), ("latitude", JSValue.number lat)]
          properties :=
            { point_count := JSValue.number 0, item := item, cluster_id := JSValue.undefined } }
    | _, _ => Except.error (JSError.configurationError "coordinate")

/-- The zoom range `GeoViewport.viewport` falls back on when it is called, as here, with a
bounding box and dimensions only: 0 to 20. The fitting computation itself is `fit`. -/
def GeoViewport.viewportWith (fit : BBox → Num × Num → Num) (bbox : BBox)
    (dimensions : Num × Num) : Viewport :=
  { zoom := max 0 (min 20 (fit bbox dimensions)) }

/-- The largest level, from `z` down, at which a box `span` degrees wide fits `width`
pixels on a world of 256 pixels doubling at each level; 0 when none does. -/
def Sample.fitFrom (span width : Num) : Nat → Num
  | 0 => 0
  | z + 1 =>
    if 256 * 2 ^ (z + 1) * span ≤ 360 * width then ((z + 1 : Nat) : Num)
    else Sample.fitFrom span width z

/-- A longitude-only stand-in for the fitting computation, searching from level 24 down. -/
def Sample.fit (bbox : BBox) (dimensions : Num × Num) : Num :=
  Sample.fitFrom (bbox.east - bbox.west) dimensions.1 24

/-- Whether the point of a feature lies in a box. -/
def Sample.inside (bbox : BBox) (f : Feature) : Bool :=
  match f.geometry.optGet "longitude", f.geometry.optGet "latitude" with
  | JSValue.number lon, JSValue.number lat =>
    decide (bbox.west ≤ lon ∧ lon ≤ bbox.east ∧ bbox.south ≤ lat ∧ lat ≤ bbox.north)
  | _, _ => false

/-- A stand-in for the index query: every loaded point inside the box, as a marker. -/
def Sample.clusters (_options : SuperClusterOptions) (points : List Feature) (bbox : BBox)
    (_zoom : Num) : List Feature :=
  points.filter (Sample.inside bbox)

/-- The points of a list whose position, counted from `n`, is below the limit. -/
def Sample.firstUpTo (limit : Num) : Nat → List Feature → List Feature
  | _, [] => []
  | n, p :: ps => if (n : Num) < limit then p :: Sample.firstUpTo limit (n + 1) ps else []

/-- A stand-in for the leaves query: the first loaded points, up to the limit. -/
def Sample.leaves (_options : SuperClusterOptions) (points : List Feature)
    (_clusterId : JSValue) (limit : Num) : List Feature :=
  Sample.firstUpTo limit 0 points

/-- The sample collaborators. -/
def Sample.lib : Collaborators :=
  { regionToBoundingBox := Util.regionToBoundingBox
    itemToGeoJSONFeature := Util.itemToGeoJSONFeature
    viewport := GeoViewport.viewportWith Sample.fit
    clusters := Sample.clusters
    leaves := Sample.leaves }

/-- The sample collaborators with a conversion that never fails: a coordinate that is not
numeric is carried into the point as it is. -/
def Sample.lenientLib : Collaborators :=
  { Sample.lib with
    itemToGeoJSONFeature := fun item accessor =>
      Except.ok
        { geometry := (match accessor with
            | Accessor.field name => item.optGet name
            | Accessor.fn f => f item)
          properties :=
            { point_count := JSValue.number 0, item := item, cluster_id := JSValue.undefined } } }

/-- The default props of the component, for a 400 by 800 window, with no data, no
callback and no region. -/
def Sample.defaultProps : Props :=
  { region := none
    initialRegion := none
    width := 400
    height := 800
    extent := 512
    minZoom := 1
    maxZoom := 16
    radius := none
    accessor := Accessor.field "location"
    clusteringEnabled := true
    clusterPressMaxChildren := 100
    preserveClusterPressBehavior := true
    edgePadding :=
      JSValue.object
        [("top", JSValue.number 10), ("left", JSValue.number 10),
         ("right", JSValue.number 10), ("bottom", JSValue.number 10)]
    data := []
    children := []
    onClusterPress := false
    onRegionChangeComplete := false
    onLayout := false
    onMapReady := false }

/-- An item whose field `key` holds a coordinate. -/
def Sample.itemAt (key : String) (latitude longitude : Num) : JSValue :=
  JSValue.object
    [(key, JSValue.object
      [("latitude", JSValue.number latitude), ("longitude", JSValue.number longitude)])]

/-- A region around Rome, one degree wide. -/
def Sample.rome : Region :=
  { latitude := 42, longitude := 12, latitudeDelta := 1, longitudeDelta := 1 }

/-- A cluster node with the given id. -/
def Sample.cluster (id : Num) (count : Num) : Feature :=
  { geometry := JSValue.object [("longitude", JSValue.number 12), ("latitude", JSValue.number 42)]
    properties :=
      { point_count := JSValue.number count, item := JSValue.undefined
        cluster_id := JSValue.number id } }

/-- Two items located through the field `location`. -/
def Sample.items : List JSValue :=
  [Sample.itemAt "location" 42 12, Sample.itemAt "location" (83 / 2) (25 / 2)]

/-- The point of an item with the given coordinate. -/
def Sample.pointOf (item : JSValue) (latitude longitude : Num) : Feature :=
  { geometry :=
      JSValue.object
        [("longitude", JSValue.number longitude), ("latitude", JSValue.number latitude)]
    properties :=
      { point_count := JSValue.number 0, item := item, cluster_id := JSValue.undefined } }

/-- The points of the two sample items. -/
def Sample.points : List Feature :=
  [Sample.pointOf (Sample.itemAt "location" 42 12) 42 12,
   Sample.pointOf (Sample.itemAt "location" (83 / 2) (25 / 2)) (83 / 2) (25 / 2)]

/-- The default props with the sample items, Rome as initial region and every callback
configured. -/
def Sample.props : Props :=
  { Sample.defaultProps with
    initialRegion := some Sample.rome
    data := Sample.items
    onClusterPress := true
    onRegionChangeComplete := true
    onLayout := true
    onMapReady := true }

/-- The options the sample index is built with: 4.5% of the 400 pixel width as radius. -/
def Sample.options : SuperClusterOptions :=
  { extent := 512, minZoom := 1, maxZoom := 16, radius := 18 }

/-- The sample index, loaded with the two sample points. -/
def Sample.index : SuperCluster :=
  { options := Sample.options, loaded := some Sample.points }

/-- The sample component after it was mounted: index built, ref attached, not yet ready. -/
def Sample.mounted : Component :=
  { props := Sample.props
    state :=
      { data := Sample.points, region := some Sample.rome, isMapReady := false,
        isMapLayout := false }
    index := some Sample.index
    mapview := true
    dimensions := (400, 800)
    timers := [] }

/-- A street-level region in Rome, a thousandth of a degree wide. -/
def Sample.street : Region :=
  { latitude := 42, longitude := 12, latitudeDelta := 1 / 1000, longitudeDelta := 1 / 1000 }

/-- A view of the whole world. -/
def Sample.world : Region :=
  { latitude := 0, longitude := 0, latitudeDelta := 90, longitudeDelta := 45 }

/-- The mounted sample component with no cluster-press callback configured. -/
def Sample.silent : Component :=
  { Sample.mounted with props := { Sample.props with onClusterPress := false } }

/-- The mounted sample component with no cluster-press callback, in delegate mode. -/
def Sample.silentDelegate : Component :=
  { Sample.mounted with
    props := { Sample.props with onClusterPress := false, preserveClusterPressBehavior := false } }

/-- The mounted sample component in delegate mode, callback configured. -/
def Sample.delegate : Component :=
  { Sample.mounted with props := { Sample.props with preserveClusterPressBehavior := false } }

/-- An item located through the field `position`. -/
def Sample.positionedItem : JSValue :=
  Sample.itemAt "position" 42 12

/-- A mounted component whose accessor is the field name `position`, holding that item. -/
def Sample.positioned : Component :=
  { Sample.mounted with
    props := { Sample.props with accessor := Accessor.field "position",
                                 data := [Sample.positionedItem] }
    state := { Sample.mounted.state with data := [Sample.pointOf Sample.positionedItem 42 12] }
    index :=
      some { options := Sample.options,
             loaded := some [Sample.pointOf Sample.positionedItem 42 12] } }

/-- A valid item followed by an item whose `location` is `null`. -/
def Sample.badItems : List JSValue :=
  [Sample.itemAt "location" 42 12, JSValue.object [("location", JSValue.null)]]

/-- The points the lenient conversion makes of the two items of `Sample.badItems`. -/
def Sample.lenientPoints : List Feature :=
  [{ geometry :=
      JSValue.object [("latitude", JSValue.number 42), ("longitude", JSValue.number 12)]
     properties :=
      { point_count := JSValue.number 0, item := Sample.itemAt "location" 42 12,
        cluster_id := JSValue.undefined } },
   { geometry := JSValue.null
     properties :=
      { point_count := JSValue.number 0, item := JSValue.object [("location", JSValue.null)],
        cluster_id := JSValue.undefined } }]

/-- The mounted sample component once both readiness callbacks ran, showing a marker and
a cluster. -/
def Sample.ready : Component :=
  { Sample.mounted with
    state :=
      { data := [Sample.pointOf (Sample.itemAt "location" 42 12) 42 12, Sample.cluster 7 2]
        region := some Sample.rome
        isMapReady := true
        isMapLayout := true } }

/-! ## Derived notions used in the statements -/

/-- The zoom `getClusters` hands to the index query for a region. -/
def queryZoom (lib : Collaborators) (c : Component) (region : Region) : Num :=
  (chooseViewport lib c region (lib.regionToBoundingBox region)).2.zoom

/-- The library calls `getClusters` makes before it reaches the index. -/
def viewportCalls (lib : Collaborators) (c : Component) (region : Region) : List Event :=
  (chooseViewport lib c region (lib.regionToBoundingBox region)).1

/-- Whether an event is a call of the external region observer. -/
def Event.isRegionObserver : Event → Bool
  | Event.onRegionChangeComplete _ _ => true
  | _ => false

/-- Whether an event is a call of the external cluster-press callback. -/
def Event.isClusterPressCallback : Event → Bool
  | Event.onClusterPress _ _ => true
  | _ => false

/-- Whether an event is a fit instruction to the map. -/
def Event.isFit : Event → Bool
  | Event.fitToCoordinates _ _ => true
  | _ => false

/-- Whether an event is a leaves query of the index. -/
def Event.isLeavesQuery : Event → Bool
  | Event.indexGetLeaves _ _ => true
  | _ => false

/-- Whether an event consults the viewport-fitting computation. -/
def Event.isViewportCall : Event → Bool
  | Event.viewport _ _ => true
  | _ => false

/-- Whether an event builds or loads an index. -/
def Event.isRebuild : Event → Bool
  | Event.indexNew _ => true
  | Event.indexLoad _ => true
  | _ => false

/-- The index `clusterize` leaves behind when the points `points` were loaded. -/
def loadedIndex (c : Component) (points : List Feature) : SuperCluster :=
  { options := indexOptions c, loaded := some points }

/-- The component with another index and other visible nodes in place of its own. -/
def withPrior (c : Component) (prior : Option SuperCluster) (stale : List Feature) : Component :=
  { c with index := prior, state := { c.state with data := stale } }

/-! ## General facts -/

theorem mapThrowing_ok_length {α β : Type} (f : α → Except JSError β) :
    ∀ (xs : List α) (ys : List β), mapThrowing f xs = Except.ok ys → ys.length = xs.length := by
  intro xs
  induction xs with
  | nil =>
    intro ys h
    simp [mapThrowing] at h
    subst h
    rfl
  | cons x xs ih =>
    intro ys h
    unfold mapThrowing at h
    cases hx : f x with
    | error e => simp [hx] at h
    | ok y =>
      cases hrest : mapThrowing f xs with
      | error e => simp [hx, hrest] at h
      | ok zs =>
        simp [hx, hrest] at h
        subst h
        simp [ih zs hrest]

theorem mapThrowing_ok_pointwise {α β : Type} (f : α → Except JSError β) :
    ∀ (xs : List α) (ys : List β), mapThrowing f xs = Except.ok ys →
      List.Forall₂ (fun x y => f x = Except.ok y) xs ys := by
  intro xs
  induction xs with
  | nil =>
    intro ys h
    simp [mapThrowing] at h
    subst h
    exact List.Forall₂.nil
  | cons x xs ih =>
    intro ys h
    unfold mapThrowing at h
    cases hx : f x with
    | error e => simp [hx] at h
    | ok y =>
      cases hrest : mapThrowing f xs with
      | error e => simp [hx, hrest] at h
      | ok zs =>
        simp [hx, hrest] at h
        subst h
        exact List.Forall₂.cons hx (ih zs hrest)

theorem mapThrowing_error_of_mem {α β : Type} (f : α → Except JSError β) :
    ∀ (xs : List α) (x : α) (e : JSError), x ∈ xs → f x = Except.error e →
      ∃ e2, mapThrowing f xs = Except.error e2 := by
  intro xs
  induction xs with
  | nil => intro x e hmem; simp at hmem
  | cons a xs ih =>
    intro x e hmem hx
    unfold mapThrowing
    cases ha : f a with
    | error e1 => exact ⟨e1, rfl⟩
    | ok y =>
      have hin : x ∈ xs := by
        rcases List.mem_cons.mp hmem with h | h
        · subst h
          rw [hx] at ha
          cases ha
        · exact h
      obtain ⟨e2, he2⟩ := ih x e hin hx
      exact ⟨e2, by simp [he2]⟩

theorem getClusters_built (lib : Collaborators) (c : Component) (index : SuperCluster)
    (points : List Feature) (r : Region) (hindex : c.index = some index)
    (hloaded : index.loaded = some points) :
    getClusters lib c (some r) =
      (viewportCalls lib c r ++ [Event.indexGetClusters (lib.regionToBoundingBox r) (queryZoom lib c r)],
        Except.ok (lib.clusters index.options points (lib.regionToBoundingBox r) (queryZoom lib c r))) := by
  simp [getClusters, hindex, SuperCluster.getClusters, hloaded, viewportCalls, queryZoom]

theorem queryZoom_cases (lib : Collaborators) (c : Component) (r : Region) :
    queryZoom lib c r =
      if r.longitudeDelta ≥ 40 then c.props.minZoom
      else (lib.viewport (lib.regionToBoundingBox r) c.dimensions).zoom := by
  unfold queryZoom chooseViewport
  split <;> rfl

theorem viewportCalls_cases (lib : Collaborators) (c : Component) (r : Region) :
    viewportCalls lib c r =
      if r.longitudeDelta ≥ 40 then []
      else [Event.viewport (lib.regionToBoundingBox r) c.dimensions] := by
  unfold viewportCalls chooseViewport
  split <;> rfl

theorem viewportCalls_filter_observer (lib : Collaborators) (c : Component) (r : Region) :
    (viewportCalls lib c r).filter Event.isRegionObserver = [] := by
  rw [viewportCalls_cases]
  split <;> simp [Event.isRegionObserver]

theorem viewportCalls_filter_rebuild (lib : Collaborators) (c : Component) (r : Region) :
    (viewportCalls lib c r).filter Event.isRebuild = [] := by
  rw [viewportCalls_cases]
  split <;> simp [Event.isRebuild]

theorem onRegionChangeComplete_built (lib : Collaborators) (c : Component)
    (index : SuperCluster) (points : List Feature) (r : Region) (hindex : c.index = some index)
    (hloaded : index.loaded = some points) :
    onRegionChangeComplete lib c r =
      { comp :=
          { c with
            state :=
              { c.state with
                region := some r
                data :=
                  lib.clusters index.options points (lib.regionToBoundingBox r)
                    (queryZoom lib c r) } }
        trace :=
          (viewportCalls lib c r ++
            [Event.indexGetClusters (lib.regionToBoundingBox r) (queryZoom lib c r)]) ++
          (if c.props.onRegionChangeComplete then
            [Event.onRegionChangeComplete r
              (lib.clusters index.options points (lib.regionToBoundingBox r) (queryZoom lib c r))]
           else [])
        thrown := none } := by
  unfold onRegionChangeComplete
  rw [getClusters_built lib c index points r hindex hloaded]

/-- C1: in a state with a built index, `onRegionChangeComplete(r)` only re-queries. It
returns normally; the new state has region `r` and, as data, the result of
`index.getClusters(bbox(r), zoom(r))` on the index as it was; the index, the props and both
readiness flags are unchanged; nothing is built or loaded; and the calls of the external
observer are exactly one call with `(r, data)` when the observer is configured (none when
it is not). -/
theorem onRegionChangeComplete_requery_only (lib : Collaborators) (c : Component)
    (index : SuperCluster) (points : List Feature) (r : Region) (hindex : c.index = some index)
    (hloaded : index.loaded = some points) :
    (onRegionChangeComplete lib c r).thrown = none ∧
    (onRegionChangeComplete lib c r).comp.state.region = some r ∧
    SuperCluster.getClusters lib index (lib.regionToBoundingBox r) (queryZoom lib c r) =
      Except.ok (onRegionChangeComplete lib c r).comp.state.data ∧
    (onRegionChangeComplete lib c r).comp.index = some index ∧
    (onRegionChangeComplete lib c r).comp.state.isMapReady = c.state.isMapReady ∧
    (onRegionChangeComplete lib c r).comp.state.isMapLayout = c.state.isMapLayout ∧
    (onRegionChangeComplete lib c r).trace.filter Event.isRebuild = [] ∧
    (onRegionChangeComplete lib c r).trace.filter Event.isRegionObserver =
      (if c.props.onRegionChangeComplete then
        [Event.onRegionChangeComplete r (onRegionChangeComplete lib c r).comp.state.data]
       else []) := by
  rw [onRegionChangeComplete_built lib c index points r hindex hloaded]
  refine ⟨rfl, rfl, ?_, hindex, rfl, rfl, ?_, ?_⟩
  · simp [SuperCluster.getClusters, hloaded]
  · simp only [List.filter_append, viewportCalls_filter_rebuild]
    cases c.props.onRegionChangeComplete <;> simp [Event.isRebuild]
  · simp only [List.filter_append, viewportCalls_filter_observer]
    cases c.props.onRegionChangeComplete <;> simp [Event.isRegionObserver]

/-- Witness for C1 on the mounted sample component and the region of Rome. -/
theorem onRegionChangeComplete_requery_only_witness :
    Sample.mounted.index = some Sample.index ∧ Sample.index.loaded = some Sample.points ∧
    (onRegionChangeComplete Sample.lib Sample.mounted Sample.rome).comp.state.region =
      some Sample.rome :=
  ⟨rfl, rfl,
    (onRegionChangeComplete_requery_only Sample.lib Sample.mounted Sample.index Sample.points
      Sample.rome rfl rfl).2.1⟩

/-! ## Rebuilding the index -/

theorem Sample.items_convert :
    mapThrowing (fun item => Sample.lib.itemToGeoJSONFeature item Sample.props.accessor)
      Sample.items = Except.ok Sample.points :=
  rfl

theorem Sample.clusters_rome (z : Num) :
    Sample.clusters Sample.options Sample.points (Util.regionToBoundingBox Sample.rome) z =
      Sample.points := by
  simp [Sample.clusters, Sample.points, Sample.inside, Sample.pointOf, JSValue.optGet,
    lookupField, Util.regionToBoundingBox, Sample.rome, clamp]
  norm_num

theorem Sample.options_eq : indexOptions (mapRef (construct Sample.props)) = Sample.options := by
  simp [indexOptions, mapRef, construct, Sample.props, Sample.options, Sample.defaultProps,
    orNum]
  norm_num

theorem clusterize_ok (lib : Collaborators) (c : Component) (dataset : List JSValue)
    (points : List Feature) (r : Region)
    (hconv : mapThrowing (fun item => lib.itemToGeoJSONFeature item c.props.accessor) dataset =
      Except.ok points)
    (hregion : c.state.region = some r) :
    clusterize lib c dataset =
      { comp :=
          { c with
            index := some (loadedIndex c points)
            state :=
              { c.state with
                data :=
                  lib.clusters (indexOptions c) points (lib.regionToBoundingBox r)
                    (queryZoom lib c r) } }
        trace :=
          [Event.indexNew (indexOptions c), Event.indexLoad points] ++
            (viewportCalls lib c r ++
              [Event.indexGetClusters (lib.regionToBoundingBox r) (queryZoom lib c r)])
        thrown := none } := by
  unfold clusterize
  simp only [hconv, hregion]
  rw [getClusters_built lib _ (loadedIndex c points) points r rfl rfl]
  rfl

theorem clusterize_error (lib : Collaborators) (c : Component) (dataset : List JSValue)
    (e : JSError)
    (hconv : mapThrowing (fun item => lib.itemToGeoJSONFeature item c.props.accessor) dataset =
      Except.error e) :
    clusterize lib c dataset =
      { comp := { c with index := some (SuperCluster.create (indexOptions c)) }
        trace := [Event.indexNew (indexOptions c)]
        thrown := some e } := by
  unfold clusterize
  simp only [hconv]

theorem clusterize_raises_of_failing_item (lib : Collaborators) (c : Component)
    (dataset : List JSValue) (item : JSValue) (e : JSError) (hmem : item ∈ dataset)
    (hfail : lib.itemToGeoJSONFeature item c.props.accessor = Except.error e) :
    ∃ e2, (clusterize lib c dataset).thrown = some e2 ∧
      (clusterize lib c dataset).comp.state = c.state := by
  obtain ⟨e2, he2⟩ :=
    mapThrowing_error_of_mem (fun item => lib.itemToGeoJSONFeature item c.props.accessor)
      dataset item e hmem hfail
  exact ⟨e2, by rw [clusterize_error lib c dataset e2 he2], by
    rw [clusterize_error lib c dataset e2 he2]⟩

/-- Counterexample to C2: the mounted sample component shows the two points of its first
item set; the next set holds a valid item and an item whose `location` is `null`. The
conversion of the second item raises, `clusterize` throws, the index it leaves is the fresh
one with nothing loaded, and the visible nodes are still the two points of the first set. -/
theorem clusterize_keeps_stale_nodes :
    (clusterize Sample.lib Sample.mounted Sample.badItems).thrown =
      some (JSError.configurationError "coordinate") ∧
    (clusterize Sample.lib Sample.mounted Sample.badItems).comp.index =
      some (SuperCluster.create (indexOptions Sample.mounted)) ∧
    (SuperCluster.create (indexOptions Sample.mounted)).loaded = none ∧
    (clusterize Sample.lib Sample.mounted Sample.badItems).comp.state.data = Sample.points := by
  have herr :
      mapThrowing (fun item => Sample.lib.itemToGeoJSONFeature item
        Sample.mounted.props.accessor) Sample.badItems =
        Except.error (JSError.configurationError "coordinate") := rfl
  rw [clusterize_error Sample.lib Sample.mounted Sample.badItems _ herr]
  exact ⟨rfl, rfl, rfl, rfl⟩

/-- C2, amended: snapshot replacement. Whatever index `prior` and visible nodes `stale` the
component held, when every item of the new set converts (to the points `points`, one per
item, in order) and the state has a current region `r`, `clusterize` returns normally,
leaves an index loaded with exactly `points`, and replaces the visible nodes by the query
of that new index at `r`; the region is kept. -/
theorem clusterize_snapshot_replacement (lib : Collaborators) (c : Component)
    (prior : Option SuperCluster) (stale : List Feature) (dataset : List JSValue)
    (points : List Feature) (r : Region)
    (hconv : mapThrowing (fun item => lib.itemToGeoJSONFeature item c.props.accessor) dataset =
      Except.ok points)
    (hregion : c.state.region = some r) :
    (clusterize lib (withPrior c prior stale) dataset).thrown = none ∧
    (clusterize lib (withPrior c prior stale) dataset).comp.index =
      some (loadedIndex c points) ∧
    (loadedIndex c points).loaded = some points ∧
    List.Forall₂ (fun item point => lib.itemToGeoJSONFeature item c.props.accessor =
      Except.ok point) dataset points ∧
    points.length = dataset.length ∧
    SuperCluster.getClusters lib (loadedIndex c points) (lib.regionToBoundingBox r)
        (queryZoom lib c r) =
      Except.ok (clusterize lib (withPrior c prior stale) dataset).comp.state.data ∧
    (clusterize lib (withPrior c prior stale) dataset).comp.state.region = some r := by
  have hrun := clusterize_ok lib (withPrior c prior stale) dataset points r hconv hregion
  rw [hrun]
  refine ⟨rfl, rfl, rfl, ?_, ?_, ?_, hregion⟩
  · exact mapThrowing_ok_pointwise _ dataset points hconv
  · exact mapThrowing_ok_length _ dataset points hconv
  · simp [SuperCluster.getClusters, loadedIndex]
    rfl

/-- Witness for C2: a new single-item set replaces the two points the mounted sample
component had loaded. -/
theorem clusterize_snapshot_replacement_witness :
    mapThrowing (fun item => Sample.lib.itemToGeoJSONFeature item Sample.mounted.props.accessor)
      [Sample.itemAt "location" (85 / 2) (23 / 2)] =
      Except.ok [Sample.pointOf (Sample.itemAt "location" (85 / 2) (23 / 2)) (85 / 2) (23 / 2)] ∧
    Sample.mounted.state.region = some Sample.rome ∧
    (clusterize Sample.lib (withPrior Sample.mounted (some Sample.index) Sample.points)
      [Sample.itemAt "location" (85 / 2) (23 / 2)]).comp.index =
      some (loadedIndex Sample.mounted
        [Sample.pointOf (Sample.itemAt "location" (85 / 2) (23 / 2)) (85 / 2) (23 / 2)]) :=
  ⟨rfl, rfl,
    (clusterize_snapshot_replacement Sample.lib Sample.mounted (some Sample.index) Sample.points
      [Sample.itemAt "location" (85 / 2) (23 / 2)]
      [Sample.pointOf (Sample.itemAt "location" (85 / 2) (23 / 2)) (85 / 2) (23 / 2)]
      Sample.rome rfl rfl).2.1⟩

theorem Sample.mounted_eq :
    (componentDidMount Sample.lib (mapRef (construct Sample.props))).comp = Sample.mounted := by
  unfold componentDidMount
  show (clusterize Sample.lib (mapRef (construct Sample.props)) Sample.items).comp = _
  rw [clusterize_ok Sample.lib (mapRef (construct Sample.props)) Sample.items Sample.points
    Sample.rome Sample.items_convert rfl]
  simp only [loadedIndex, Sample.options_eq]
  simp [Sample.mounted, mapRef, construct, Sample.index, orRegion, Sample.props,
    Sample.defaultProps]
  simp only [Sample.lib, Sample.clusters_rome]

/-! ## The zoom of the query -/

/-- C5: world-view fallback. For a region with `longitudeDelta >= 40`, whatever the pixel
dimensions, the zoom `getClusters` passes to the index query is `minZoom`, and the
viewport-fitting computation is not consulted: no call of it is made, and replacing it by
any other function changes nothing. -/
theorem getClusters_world_view (lib : Collaborators) (c : Component) (r : Region)
    (dimensions : Num × Num) (fitting : BBox → Num × Num → Viewport)
    (hworld : r.longitudeDelta ≥ 40) :
    queryZoom lib { c with dimensions := dimensions } r = c.props.minZoom ∧
    getClusters lib { c with dimensions := dimensions } (some r) =
      (match c.index with
       | none => ([], Except.error (JSError.typeError "getClusters"))
       | some index =>
         ([Event.indexGetClusters (lib.regionToBoundingBox r) c.props.minZoom],
           SuperCluster.getClusters lib index (lib.regionToBoundingBox r) c.props.minZoom)) ∧
    (getClusters lib { c with dimensions := dimensions } (some r)).1.filter
      Event.isViewportCall = [] ∧
    getClusters { lib with viewport := fitting } { c with dimensions := dimensions } (some r) =
      getClusters lib { c with dimensions := dimensions } (some r) := by
  refine ⟨?_, ?_, ?_, ?_⟩
  · simp [queryZoom_cases, hworld]
  · cases hi : c.index <;> simp [getClusters, chooseViewport, hworld, hi]
  · cases hi : c.index <;> simp [getClusters, chooseViewport, hworld, hi, Event.isViewportCall]
  · cases hi : c.index <;>
      simp [getClusters, chooseViewport, hworld, hi, SuperCluster.getClusters]

/-- Witness for C5: a view of the whole world, 45 degrees of longitude, on a one-pixel map. -/
theorem getClusters_world_view_witness :
    Sample.world.longitudeDelta ≥ 40 ∧
    queryZoom Sample.lib { Sample.mounted with dimensions := (1, 1) } Sample.world =
      Sample.mounted.props.minZoom :=
  ⟨by decide,
    (getClusters_world_view Sample.lib Sample.mounted Sample.world (1, 1) Sample.lib.viewport
      (by decide)).1⟩

theorem Sample.street_zoom : queryZoom Sample.lib Sample.mounted Sample.street = 19 := by
  norm_num [queryZoom_cases, Sample.street, Sample.lib, Sample.mounted, GeoViewport.viewportWith,
    Sample.fit, Sample.fitFrom, Util.regionToBoundingBox, clamp]

theorem Sample.rome_viewport :
    (Sample.lib.viewport (Sample.lib.regionToBoundingBox Sample.rome)
      Sample.mounted.dimensions).zoom = 9 := by
  norm_num [Sample.rome, Sample.lib, Sample.mounted, GeoViewport.viewportWith,
    Sample.fit, Sample.fitFrom, Util.regionToBoundingBox, clamp]

/-- Counterexample to C8: with the default range 1 to 16, a street-level region a
thousandth of a degree wide on a 400 pixel wide map is queried at zoom 19, above
`maxZoom`. The fitting library is called with the box and the dimensions only, so its
result cannot follow the configured range. -/
theorem getClusters_zoom_not_clamped :
    Sample.mounted.props.maxZoom = 16 ∧
    (getClusters Sample.lib Sample.mounted (some Sample.street)).1 =
      [Event.viewport (Util.regionToBoundingBox Sample.street) (400, 800),
        Event.indexGetClusters (Util.regionToBoundingBox Sample.street) 19] ∧
    ¬ (Sample.mounted.props.minZoom ≤ queryZoom Sample.lib Sample.mounted Sample.street ∧
        queryZoom Sample.lib Sample.mounted Sample.street ≤ Sample.mounted.props.maxZoom) := by
  refine ⟨rfl, ?_, ?_⟩
  · rw [getClusters_built Sample.lib Sample.mounted Sample.index Sample.points Sample.street
      rfl rfl, Sample.street_zoom, viewportCalls_cases]
    norm_num [Sample.street, Sample.lib, Sample.mounted]
  · rw [Sample.street_zoom]
    norm_num [Sample.mounted, Sample.props, Sample.defaultProps]

/-- C8, amended: for every region and pixel dimensions, `getClusters` queries the index
at `minZoom` when `longitudeDelta >= 40` and otherwise at the zoom `GeoViewport.viewport`
returns for the box and the dimensions alone, as it is: the index call carries that value
with no clamp. Every zoom `getClusters` passes to the index lies in the configured range
when `minZoom <= maxZoom` and, for `longitudeDelta < 40`, the zoom of the library does. -/
theorem getClusters_zoom_range (lib : Collaborators) (c : Component) (r : Region)
    (hrange : c.props.minZoom ≤ c.props.maxZoom)
    (hlib : r.longitudeDelta < 40 →
      c.props.minZoom ≤ (lib.viewport (lib.regionToBoundingBox r) c.dimensions).zoom ∧
      (lib.viewport (lib.regionToBoundingBox r) c.dimensions).zoom ≤ c.props.maxZoom) :
    queryZoom lib c r =
      (if r.longitudeDelta ≥ 40 then c.props.minZoom
       else (lib.viewport (lib.regionToBoundingBox r) c.dimensions).zoom) ∧
    c.props.minZoom ≤ queryZoom lib c r ∧ queryZoom lib c r ≤ c.props.maxZoom ∧
    getClusters lib c (some r) =
      (match c.index with
       | none =>
         ((if r.longitudeDelta ≥ 40 then []
           else [Event.viewport (lib.regionToBoundingBox r) c.dimensions]),
           Except.error (JSError.typeError "getClusters"))
       | some index =>
         ((if r.longitudeDelta ≥ 40 then []
           else [Event.viewport (lib.regionToBoundingBox r) c.dimensions]) ++
            [Event.indexGetClusters (lib.regionToBoundingBox r)
              (if r.longitudeDelta ≥ 40 then c.props.minZoom
               else (lib.viewport (lib.regionToBoundingBox r) c.dimensions).zoom)],
           SuperCluster.getClusters lib index (lib.regionToBoundingBox r)
             (if r.longitudeDelta ≥ 40 then c.props.minZoom
              else (lib.viewport (lib.regionToBoundingBox r) c.dimensions).zoom))) ∧
    (∀ (bbox : BBox) (zoom : Num),
      Event.indexGetClusters bbox zoom ∈ (getClusters lib c (some r)).1 →
        c.props.minZoom ≤ zoom ∧ zoom ≤ c.props.maxZoom) := by
  have hz : c.props.minZoom ≤ queryZoom lib c r ∧ queryZoom lib c r ≤ c.props.maxZoom := by
    rw [queryZoom_cases]
    by_cases h : r.longitudeDelta ≥ 40
    · simp only [h, if_true]
      exact ⟨le_refl _, hrange⟩
    · simp only [h, if_false]
      exact hlib (lt_of_not_ge h)
  have hrun : getClusters lib c (some r) =
      (match c.index with
       | none => (viewportCalls lib c r, Except.error (JSError.typeError "getClusters"))
       | some index =>
         (viewportCalls lib c r ++
            [Event.indexGetClusters (lib.regionToBoundingBox r) (queryZoom lib c r)],
           SuperCluster.getClusters lib index (lib.regionToBoundingBox r)
             (queryZoom lib c r))) := by
    cases hi : c.index <;> simp [getClusters, hi, viewportCalls, queryZoom]
  refine ⟨queryZoom_cases lib c r, hz.1, hz.2, ?_, ?_⟩
  · rw [hrun, viewportCalls_cases, queryZoom_cases]
  · intro bbox zoom hmem
    rw [hrun] at hmem
    cases hi : c.index with
    | none =>
      simp only [hi] at hmem
      rw [viewportCalls_cases] at hmem
      split at hmem <;> simp at hmem
    | some index =>
      simp only [hi] at hmem
      rw [viewportCalls_cases] at hmem
      have hzoom : zoom = queryZoom lib c r := by
        split at hmem <;> simp at hmem <;> exact hmem.2
      rw [hzoom]
      exact hz

/-- Witness for the amended C8: Rome, one degree wide, is queried at zoom 9. -/
theorem getClusters_zoom_range_witness :
    Sample.mounted.props.minZoom ≤ Sample.mounted.props.maxZoom ∧
    Sample.mounted.props.minZoom ≤ queryZoom Sample.lib Sample.mounted Sample.rome ∧
    queryZoom Sample.lib Sample.mounted Sample.rome ≤ Sample.mounted.props.maxZoom ∧
    (∀ (bbox : BBox) (zoom : Num),
      Event.indexGetClusters bbox zoom ∈
          (getClusters Sample.lib Sample.mounted (some Sample.rome)).1 →
        Sample.mounted.props.minZoom ≤ zoom ∧ zoom ≤ Sample.mounted.props.maxZoom) :=
  ⟨by decide,
    (getClusters_zoom_range Sample.lib Sample.mounted Sample.rome (by decide) (by
      intro _
      rw [Sample.rome_viewport]
      norm_num [Sample.mounted, Sample.props, Sample.defaultProps])).2.1,
    (getClusters_zoom_range Sample.lib Sample.mounted Sample.rome (by decide) (by
      intro _
      rw [Sample.rome_viewport]
      norm_num [Sample.mounted, Sample.props, Sample.defaultProps])).2.2.1,
    (getClusters_zoom_range Sample.lib Sample.mounted Sample.rome (by decide) (by
      intro _
      rw [Sample.rome_viewport]
      norm_num [Sample.mounted, Sample.props, Sample.defaultProps])).2.2.2.2⟩

/-! ## Pressing a cluster -/

theorem onClusterPress_auto (lib : Collaborators) (c : Component) (index : SuperCluster)
    (points : List Feature) (cluster : Feature)
    (hmode : c.props.preserveClusterPressBehavior = true) (hindex : c.index = some index)
    (hloaded : index.loaded = some points) (hmap : c.mapview = true) :
    onClusterPress lib c cluster =
      { comp := c
        trace :=
          [Event.indexGetLeaves cluster.properties.cluster_id c.props.clusterPressMaxChildren,
            Event.fitToCoordinates
              (((lib.leaves index.options points cluster.properties.cluster_id
                  c.props.clusterPressMaxChildren).map (fun ch => ch.properties.item)).map
                (fun m => m.optGet "location"))
              c.props.edgePadding] ++
          (if c.props.onClusterPress then
            [Event.onClusterPress cluster.properties.cluster_id
              (some ((lib.leaves index.options points cluster.properties.cluster_id
                c.props.clusterPressMaxChildren).map (fun ch => ch.properties.item)))]
           else [])
        thrown := none } := by
  simp [onClusterPress, hmode, hindex, SuperCluster.getLeaves, hloaded, hmap]

theorem onClusterPress_manual (lib : Collaborators) (c : Component) (cluster : Feature)
    (hmode : c.props.preserveClusterPressBehavior = false) :
    onClusterPress lib c cluster =
      { comp := c
        trace :=
          if c.props.onClusterPress then
            [Event.onClusterPress cluster.properties.cluster_id none]
          else []
        thrown := none } := by
  simp [onClusterPress, hmode]

/-- Counterexample to C3: in auto-expand mode with no `onClusterPress` callback configured,
a press on a cluster of the built index issues the fit instruction and no callback call. -/
theorem auto_expand_without_callback :
    Sample.silent.props.preserveClusterPressBehavior = true ∧
    ((onClusterPress Sample.lib Sample.silent (Sample.cluster 7 2)).trace.filter
      Event.isFit).length = 1 ∧
    (onClusterPress Sample.lib Sample.silent (Sample.cluster 7 2)).trace.filter
      Event.isClusterPressCallback = [] := by
  rw [onClusterPress_auto Sample.lib Sample.silent Sample.index Sample.points
    (Sample.cluster 7 2) rfl rfl rfl rfl]
  refine ⟨rfl, ?_, ?_⟩ <;> simp [Sample.silent, Event.isFit, Event.isClusterPressCallback]

/-- C3, amended: in auto-expand mode, a press on a cluster of the built index, with the
map ref attached, returns normally, leaves the component as it was, asks the index for
leaves with limit `clusterPressMaxChildren` once and, with `L` the leaves returned, issues
exactly one fit instruction carrying one coordinate per leaf, in order, with the
configured edge padding; the external callback is called exactly once with the cluster id
and the items of exactly those leaves, in order, when it is configured, and not at all
when it is not. Both lists have the length of `L`. -/
theorem onClusterPress_auto_expand (lib : Collaborators) (c : Component)
    (index : SuperCluster) (points : List Feature) (cluster : Feature)
    (hmode : c.props.preserveClusterPressBehavior = true) (hindex : c.index = some index)
    (hloaded : index.loaded = some points) (hmap : c.mapview = true) :
    (onClusterPress lib c cluster).thrown = none ∧
    (onClusterPress lib c cluster).comp = c ∧
    (onClusterPress lib c cluster).trace.filter Event.isLeavesQuery =
      [Event.indexGetLeaves cluster.properties.cluster_id c.props.clusterPressMaxChildren] ∧
    (onClusterPress lib c cluster).trace.filter Event.isFit =
      [Event.fitToCoordinates
        ((lib.leaves index.options points cluster.properties.cluster_id
          c.props.clusterPressMaxChildren).map (fun leaf => leaf.properties.item.optGet "location"))
        c.props.edgePadding] ∧
    (onClusterPress lib c cluster).trace.filter Event.isClusterPressCallback =
      (if c.props.onClusterPress then
        [Event.onClusterPress cluster.properties.cluster_id
          (some ((lib.leaves index.options points cluster.properties.cluster_id
            c.props.clusterPressMaxChildren).map (fun leaf => leaf.properties.item)))]
       else []) ∧
    ((lib.leaves index.options points cluster.properties.cluster_id
        c.props.clusterPressMaxChildren).map
      (fun leaf => leaf.properties.item.optGet "location")).length =
      (lib.leaves index.options points cluster.properties.cluster_id
        c.props.clusterPressMaxChildren).length ∧
    ((lib.leaves index.options points cluster.properties.cluster_id
        c.props.clusterPressMaxChildren).map (fun leaf => leaf.properties.item)).length =
      (lib.leaves index.options points cluster.properties.cluster_id
        c.props.clusterPressMaxChildren).length := by
  rw [onClusterPress_auto lib c index points cluster hmode hindex hloaded hmap]
  refine ⟨rfl, rfl, ?_, ?_, ?_, List.length_map _ _, List.length_map _ _⟩
  · cases c.props.onClusterPress <;> simp [Event.isLeavesQuery]
  · cases c.props.onClusterPress <;> simp [Event.isFit, List.map_map, Function.comp_def]
  · cases c.props.onClusterPress <;> simp [Event.isClusterPressCallback]

/-- Witness for the amended C3: the mounted sample component, callback configured. -/
theorem onClusterPress_auto_expand_witness :
    Sample.mounted.props.preserveClusterPressBehavior = true ∧
    Sample.mounted.index = some Sample.index ∧ Sample.index.loaded = some Sample.points ∧
    Sample.mounted.mapview = true ∧
    (onClusterPress Sample.lib Sample.mounted (Sample.cluster 7 2)).thrown = none :=
  ⟨rfl, rfl, rfl, rfl,
    (onClusterPress_auto_expand Sample.lib Sample.mounted Sample.index Sample.points
      (Sample.cluster 7 2) rfl rfl rfl rfl).1⟩

/-- Counterexample to C4: in delegate mode with no `onClusterPress` callback configured, a
press on a cluster makes no call at all, so the callback is not invoked once. -/
theorem delegate_without_callback :
    Sample.silentDelegate.props.preserveClusterPressBehavior = false ∧
    (onClusterPress Sample.lib Sample.silentDelegate (Sample.cluster 7 2)).trace = [] := by
  rw [onClusterPress_manual Sample.lib Sample.silentDelegate (Sample.cluster 7 2) rfl]
  refine ⟨rfl, ?_⟩
  simp [Sample.silentDelegate]

/-- C4, amended: in delegate mode, a press on a cluster returns normally and leaves the
component unchanged; its only outside call is one call of the external callback with
exactly the cluster id and no items, made when the callback is configured (no call at all
when it is not); there is no fit instruction and no leaves query. -/
theorem onClusterPress_delegate (lib : Collaborators) (c : Component) (cluster : Feature)
    (hmode : c.props.preserveClusterPressBehavior = false) :
    (onClusterPress lib c cluster).thrown = none ∧
    (onClusterPress lib c cluster).comp = c ∧
    (onClusterPress lib c cluster).trace =
      (if c.props.onClusterPress then
        [Event.onClusterPress cluster.properties.cluster_id none]
       else []) ∧
    (onClusterPress lib c cluster).trace.filter Event.isFit = [] ∧
    (onClusterPress lib c cluster).trace.filter Event.isLeavesQuery = [] := by
  rw [onClusterPress_manual lib c cluster hmode]
  refine ⟨rfl, rfl, rfl, ?_, ?_⟩
  · cases c.props.onClusterPress <;> simp [Event.isFit]
  · cases c.props.onClusterPress <;> simp [Event.isLeavesQuery]

/-- Witness for the amended C4: the sample component in delegate mode calls the callback
with the cluster id alone. -/
theorem onClusterPress_delegate_witness :
    Sample.delegate.props.preserveClusterPressBehavior = false ∧
    (onClusterPress Sample.lib Sample.delegate (Sample.cluster 7 2)).trace =
      [Event.onClusterPress (JSValue.number 7) none] :=
  ⟨rfl, (onClusterPress_delegate Sample.lib Sample.delegate (Sample.cluster 7 2) rfl).2.2.1⟩

/-- C10 at a failing input: with the accessor `position`, the item is indexed at the
coordinate its `position` field holds, and a press on its cluster fits the map to
`undefined`, the value read from the missing `location` field of the item, not to that coordinate. -/
theorem onClusterPress_ignores_accessor :
    mapThrowing (fun item => Util.itemToGeoJSONFeature item Sample.positioned.props.accessor)
      [Sample.positionedItem] = Except.ok [Sample.pointOf Sample.positionedItem 42 12] ∧
    Util.resolveCoordinate Sample.positionedItem Sample.positioned.props.accessor =
      Except.ok (JSValue.object
        [("latitude", JSValue.number 42), ("longitude", JSValue.number 12)]) ∧
    (onClusterPress Sample.lib Sample.positioned (Sample.cluster 7 1)).trace.filter Event.isFit =
      [Event.fitToCoordinates [JSValue.undefined] Sample.positioned.props.edgePadding] := by
  refine ⟨rfl, rfl, ?_⟩
  rw [onClusterPress_auto Sample.lib Sample.positioned
    { options := Sample.options, loaded := some [Sample.pointOf Sample.positionedItem 42 12] }
    [Sample.pointOf Sample.positionedItem 42 12] (Sample.cluster 7 1) rfl rfl rfl rfl]
  simp [Event.isFit, Sample.lib, Sample.leaves, Sample.firstUpTo, Sample.positioned,
    Sample.props, Sample.defaultProps, Sample.pointOf, Sample.positionedItem, Sample.itemAt,
    JSValue.optGet, lookupField]

/-! ## Skipping nothing: conversion errors -/

/-- Counterexample to C7: a valid item followed by an item whose `location` is `null`.
With the conversion of the specification, `clusterize` raises the configuration error and
leaves the fresh index unloaded, so the valid item is not loaded either; with a conversion
that never fails, the point of the bad item is loaded with the other one. In neither case
is the item skipped. -/
theorem clusterize_does_not_skip :
    (clusterize Sample.lib (construct Sample.props) Sample.badItems).thrown =
      some (JSError.configurationError "coordinate") ∧
    (clusterize Sample.lib (construct Sample.props) Sample.badItems).comp.index =
      some (SuperCluster.create (indexOptions (construct Sample.props))) ∧
    (SuperCluster.create (indexOptions (construct Sample.props))).loaded = none ∧
    (∃ points,
      (clusterize Sample.lenientLib (construct Sample.props) Sample.badItems).comp.index =
        some (loadedIndex (construct Sample.props) points) ∧
      points.length = 2) := by
  have herr :
      mapThrowing (fun item => Sample.lib.itemToGeoJSONFeature item
        (construct Sample.props).props.accessor) Sample.badItems =
        Except.error (JSError.configurationError "coordinate") := rfl
  refine ⟨?_, ?_, rfl, ?_⟩
  · rw [clusterize_error Sample.lib (construct Sample.props) Sample.badItems _ herr]
  · rw [clusterize_error Sample.lib (construct Sample.props) Sample.badItems _ herr]
  · have hok :
        mapThrowing (fun item => Sample.lenientLib.itemToGeoJSONFeature item
          (construct Sample.props).props.accessor) Sample.badItems =
          Except.ok Sample.lenientPoints := rfl
    refine ⟨Sample.lenientPoints, ?_, rfl⟩
    rw [clusterize_ok Sample.lenientLib (construct Sample.props) Sample.badItems _ Sample.rome
      hok rfl]

/-- C7, amended: `clusterize` skips no item. It converts the items in order; either the
conversion of an item raises, and then that error leaves `clusterize`, the fresh index is
left unloaded and the state is unchanged; or every item converts, and then the index is
loaded with one point per item, in order, none left out. -/
theorem clusterize_converts_every_item (lib : Collaborators) (c : Component)
    (dataset : List JSValue) :
    (∃ e,
      mapThrowing (fun item => lib.itemToGeoJSONFeature item c.props.accessor) dataset =
        Except.error e ∧
      (clusterize lib c dataset).thrown = some e ∧
      (clusterize lib c dataset).comp.index = some (SuperCluster.create (indexOptions c)) ∧
      (clusterize lib c dataset).comp.state = c.state) ∨
    (∃ points,
      mapThrowing (fun item => lib.itemToGeoJSONFeature item c.props.accessor) dataset =
        Except.ok points ∧
      points.length = dataset.length ∧
      List.Forall₂ (fun item point => lib.itemToGeoJSONFeature item c.props.accessor =
        Except.ok point) dataset points ∧
      (clusterize lib c dataset).comp.index = some (loadedIndex c points)) := by
  cases hconv : mapThrowing (fun item => lib.itemToGeoJSONFeature item c.props.accessor)
      dataset with
  | error e =>
    left
    refine ⟨e, rfl, ?_, ?_, ?_⟩ <;> rw [clusterize_error lib c dataset e hconv]
  | ok points =>
    right
    refine ⟨points, rfl, mapThrowing_ok_length _ dataset points hconv,
      mapThrowing_ok_pointwise _ dataset points hconv, ?_⟩
    unfold clusterize
    simp only [hconv]
    split <;> rfl

/-! ## Rendering -/

theorem strictEqZero_iff (v : JSValue) : v.strictEqZero = true ↔ v = JSValue.number 0 := by
  cases v <;> simp [JSValue.strictEqZero]

/-- C6: readiness gating. Both readiness flags start false. The layout handler changes
nothing but the timers: it schedules its own callback, 3000 ms later, and when that timer
fires the state differs only in `isMapLayout`, now true; likewise the engine-ready
handler schedules its own callback, which sets `isMapReady` and nothing else. In every
state of the component, reachable or not, `render` emits nothing inside the map exactly
when the two flags are not both true. -/
theorem render_readiness_gate (props : Props) (c : Component) :
    (construct props).state.isMapReady = false ∧
    (construct props).state.isMapLayout = false ∧
    (onMapLayout c).comp.state = c.state ∧
    (fireTimer c TimerCallback.layout).comp.state = { c.state with isMapLayout := true } ∧
    (onMapReady c).comp.state = c.state ∧
    (fireTimer c TimerCallback.ready).comp.state = { c.state with isMapReady := true } ∧
    (render c = Rendered.nothing ↔
      ¬ (c.state.isMapReady = true ∧ c.state.isMapLayout = true)) ∧
    (onMapLayout c).comp = { c with timers := c.timers ++ [TimerCallback.layout] } ∧
    (onMapLayout c).trace = [Event.setTimeout TimerCallback.layout 3000] ∧
    (drain (onMapLayout { c with timers := [] }).comp).state =
      { c.state with isMapLayout := true } ∧
    (onMapReady c).comp = { c with timers := c.timers ++ [TimerCallback.ready] } ∧
    (onMapReady c).trace = [Event.setTimeout TimerCallback.ready 3000] ∧
    (drain (onMapReady { c with timers := [] }).comp).state =
      { c.state with isMapReady := true } := by
  refine ⟨rfl, rfl, rfl, rfl, rfl, rfl, ?_, rfl, rfl, rfl, rfl, rfl, rfl⟩
  cases hr : c.state.isMapReady <;> cases hl : c.state.isMapLayout <;>
    simp [render, Rendered.nothing, hr, hl]

/-- C9: render classification and order. In a ready state with clustering enabled, the
nodes of `state.data` are rendered one element per node, in the order of `state.data`: a
node whose point count is `0` as `renderMarker` applied to the item it wraps, every other
node as a cluster marker keyed by its cluster id. No raw marker is rendered. -/
theorem render_classifies_nodes (c : Component) (hready : c.state.isMapReady = true)
    (hlayout : c.state.isMapLayout = true) (henabled : c.props.clusteringEnabled = true) :
    (render c).clusterSlot = some (c.state.data.map renderNode) ∧
    (c.state.data.map renderNode).length = c.state.data.length ∧
    List.Forall₂
      (fun d element =>
        (d.properties.point_count = JSValue.number 0 →
          element = Element.renderMarker d.properties.item) ∧
        (d.properties.point_count ≠ JSValue.number 0 →
          element = Element.clusterMarker "cluster-" d.properties.cluster_id d))
      c.state.data (c.state.data.map renderNode) ∧
    (render c).rawSlot = none := by
  refine ⟨?_, List.length_map _ _, ?_, ?_⟩
  · simp [render, hready, hlayout, henabled]
  · generalize c.state.data = nodes
    induction nodes with
    | nil => exact List.Forall₂.nil
    | cons d rest ih =>
      refine List.Forall₂.cons ⟨?_, ?_⟩ ih
      · intro h
        have hz := (strictEqZero_iff d.properties.point_count).mpr h
        simp [renderNode, hz]
      · intro h
        have hz : d.properties.point_count.strictEqZero = false := by
          cases hb : d.properties.point_count.strictEqZero
          · rfl
          · exact absurd ((strictEqZero_iff _).mp hb) h
        simp [renderNode, hz]
  · simp [render, hready, hlayout, henabled]

/-- Witness for C9: the ready sample component renders its marker, then its cluster. -/
theorem render_classifies_nodes_witness :
    Sample.ready.state.isMapReady = true ∧ Sample.ready.state.isMapLayout = true ∧
    Sample.ready.props.clusteringEnabled = true ∧
    (render Sample.ready).clusterSlot = some (Sample.ready.state.data.map renderNode) :=
  ⟨rfl, rfl, rfl, (render_classifies_nodes Sample.ready rfl rfl rfl).1⟩

end ClusteredMapView
